import Mathlib

/-
Verification of the ticketing-system core against its specification.

The definitions below are shallow embeddings of the Python source:
  - agent/tools.py   (APIClient._make_request_with_retry, TicketingTools)
  - api/database.py  (TicketDatabase)
  - api/routes.py    (update_ticket route handler, get_tickets)
  - api/models.py    (Ticket, TicketUpdate and its pydantic validation)
  - api/exception.py (error taxonomy)

Machine details kept explicit: HTTP statuses are integers, delays are exact
rationals (Python floats are used only for multiplication of small config
values; we model the arithmetic exactly), JSON bodies distinguish
absent / null / present fields, and Python dict-shaped results are records
whose optional fields model presence or absence of a key.
-/

namespace TicketSys

/-! ## HTTP responses and JSON bodies (agent/tools.py view) -/

/-- The subset of a parsed JSON response body that the adapter code touches:
the "detail" field of error bodies and the "id" field of ticket bodies. -/
structure BodyVal where
  detail : Option String := none
  id : Option String := none
  deriving DecidableEq, Repr

/-- A requests.Response as seen by the client code: a status code and a body
that either parses as JSON (`some`) or makes `.json()` raise (`none`). -/
structure HttpResponse where
  status_code : Int
  body : Option BodyVal := none
  deriving DecidableEq, Repr

instance : Inhabited HttpResponse := ⟨⟨0, none⟩⟩

/-! ## APIClient._make_request_with_retry (agent/tools.py lines 67-122) -/

/-- Configuration for retry behavior (dataclass RetryConfig). -/
structure RetryConfig where
  max_retries : Int
  base_delay : ℚ
  backoff_factor : ℚ
  deriving DecidableEq, Repr

/-- What one call to session.request does: either return a response or raise
a requests.exceptions.RequestException carrying a message. -/
inductive AttemptOutcome where
  | resp (r : HttpResponse)
  | exc (e : String)
  deriving DecidableEq, Repr

/-- How _make_request_with_retry ends: returning a response, or raising
APIClientError (wrapping the last transport exception when one was seen). -/
inductive RetryResult where
  | ok (r : HttpResponse)
  | raised (wrapped : Option String)
  deriving DecidableEq, Repr

/-- Observable trace of one _make_request_with_retry call: its result, the
sleeps performed (in order), and how many attempts were issued. -/
structure RunTrace where
  result : RetryResult
  delays : List ℚ
  attempts : Nat
  deriving DecidableEq, Repr

/-- The retry loop body. `n` is max_retries as a count, `fuel` the number of
loop iterations still to run (so the current zero-based attempt index is
`n - fuel`), `lastExc` is the Python local `last_exception`. When fuel runs
out the code after the loop raises APIClientError, wrapping `last_exception`
when it is set. -/
def retryGo (cfg : RetryConfig) (outcomes : Nat → AttemptOutcome) (n : Nat) :
    Nat → Option String → RunTrace
  | 0, lastExc => ⟨.raised lastExc, [], 0⟩
  | fuel + 1, lastExc =>
    let i := n - (fuel + 1)
    match outcomes i with
    | .resp r =>
      if 500 ≤ r.status_code then
        if fuel = 0 then
          ⟨.ok r, [], 1⟩
        else
          let d := cfg.base_delay * cfg.backoff_factor ^ i
          let t := retryGo cfg outcomes n fuel lastExc
          ⟨t.result, d :: t.delays, t.attempts + 1⟩
      else
        ⟨.ok r, [], 1⟩
    | .exc e =>
      if fuel = 0 then
        ⟨.raised (some e), [], 1⟩
      else
        let d := cfg.base_delay * cfg.backoff_factor ^ i
        let t := retryGo cfg outcomes n fuel (some e)
        ⟨t.result, d :: t.delays, t.attempts + 1⟩

/-- APIClient._make_request_with_retry: run the loop for
`range(self.retry_config.max_retries)` (empty when max_retries ≤ 0) with
`last_exception = None` initially. `outcomes i` is what the i-th
session.request call would do. -/
def makeRequestWithRetry (cfg : RetryConfig) (outcomes : Nat → AttemptOutcome) : RunTrace :=
  retryGo cfg outcomes cfg.max_retries.toNat cfg.max_retries.toNat none

/-- The response carried by an outcome (default when it is an exception). -/
def respAt (outcomes : Nat → AttemptOutcome) (i : Nat) : HttpResponse :=
  match outcomes i with
  | .resp r => r
  | .exc _ => default

/-- The exception message carried by an outcome (empty when a response). -/
def excAt (outcomes : Nat → AttemptOutcome) (i : Nat) : String :=
  match outcomes i with
  | .resp _ => ""
  | .exc e => e

/-- An outcome the client treats as retryable: a 5xx response or a
transport-level exception. -/
def retryableOutcome : AttemptOutcome → Prop
  | .resp r => 500 ≤ r.status_code
  | .exc _ => True

instance : DecidablePred retryableOutcome := by
  intro o
  cases o with
  | resp r => exact inferInstanceAs (Decidable (500 ≤ r.status_code))
  | exc e => exact inferInstanceAs (Decidable True)

/-! ## Ticket data model (api/models.py) -/

/-- Enum TicketStatus. -/
inductive TicketStatus where
  | OPEN
  | RESOLVED
  | CLOSED
  deriving DecidableEq, Repr

/-- The .value of a TicketStatus member (it is a str enum). -/
def TicketStatus.valueStr : TicketStatus → String
  | .OPEN => "OPEN"
  | .RESOLVED => "RESOLVED"
  | .CLOSED => "CLOSED"

/-- The TicketStatus(value) constructor: succeeds exactly on the three
member values, raises ValueError (here: none) otherwise. -/
def ticketStatusOfString (s : String) : Option TicketStatus :=
  if s = "OPEN" then some .OPEN
  else if s = "RESOLVED" then some .RESOLVED
  else if s = "CLOSED" then some .CLOSED
  else none

/-- A stored ticket record. The pydantic model declares title and
description as str, but the update route assigns attribute values without
assignment validation, so any patchable attribute can hold None at runtime;
the record therefore carries Option values for all patchable fields.
Timestamps are abstracted as naturals. -/
structure Ticket where
  id : String
  title : Option String
  description : Option String
  comments : Option (List String)
  created : Nat
  updated : Option Nat
  status : Option TicketStatus
  resolution : Option String
  deriving DecidableEq, Repr

/-- Python truthiness of an Optional[str] attribute: truthy iff present and
non-empty. -/
def truthyStr : Option String → Bool
  | none => false
  | some s => decide (s ≠ "")

/-! ## Request bodies and pydantic parsing (api/models.py TicketUpdate) -/

/-- A field of a JSON object: absent, explicit null, or a value. -/
inductive JField (α : Type) where
  | absent
  | null
  | val (a : α)
  deriving DecidableEq, Repr

/-- A parsed model field, tracking pydantic field-set state: `unset` when the
key was absent from the body (excluded by dict(exclude_unset=True)), `set v`
when the key was present with parsed value v (v = none for explicit null). -/
inductive Patch (α : Type) where
  | unset
  | set (v : Option α)
  deriving DecidableEq, Repr

/-- The raw JSON body of a PUT /tickets/{id} request, field by field. -/
structure RawTicketUpdate where
  title : JField String := .absent
  description : JField String := .absent
  status : JField String := .absent
  resolution : JField String := .absent
  comments : JField (List String) := .absent
  deriving DecidableEq, Repr

/-- A validated TicketUpdate model instance. -/
structure TicketUpdate where
  title : Patch String
  description : Patch String
  status : Patch TicketStatus
  resolution : Patch String
  comments : Patch (List String)
  deriving DecidableEq, Repr

/-- Kinds of pydantic field-validation failures relevant here. -/
inductive FieldErr where
  | lengthViolation
  | enumInvalid
  | resolutionRequired
  deriving DecidableEq, Repr

/-- Field(None, min_length=1, max_length=200): constraints are checked only
on an actual string value; explicit null passes through as None. -/
def parseBoundedStr (minLen maxLen : Nat) : JField String → Except FieldErr (Patch String)
  | .absent => .ok .unset
  | .null => .ok (.set none)
  | .val s =>
    if minLen ≤ s.length ∧ s.length ≤ maxLen then .ok (.set (some s))
    else .error .lengthViolation

/-- status: Optional[TicketStatus]: an actual value must be a member of the
enum, otherwise pydantic records an enum error for the field. -/
def parseStatusField : JField String → Except FieldErr (Patch TicketStatus)
  | .absent => .ok .unset
  | .null => .ok (.set none)
  | .val s =>
    match ticketStatusOfString s with
    | some st => .ok (.set (some st))
    | none => .error .enumInvalid

/-- resolution: Field(None, max_length=500) followed by validate_resolution:
the validator runs only when the key is present, after the length constraint,
and raises when values.get("status") is RESOLVED and the value is falsy.
`effStatus` is values.get("status") at that point (None when the status field
was absent, null, or failed its own validation). -/
def parseResolutionField (effStatus : Option TicketStatus) :
    JField String → Except FieldErr (Patch String)
  | .absent => .ok .unset
  | .null =>
    if effStatus = some .RESOLVED then .error .resolutionRequired
    else .ok (.set none)
  | .val s =>
    if s.length ≤ 500 then
      if effStatus = some .RESOLVED ∧ s = "" then .error .resolutionRequired
      else .ok (.set (some s))
    else .error .lengthViolation

/-- comments: Optional[List[str]] = None has no constraints. -/
def parseCommentsField : JField (List String) → Except FieldErr (Patch (List String))
  | .absent => .ok .unset
  | .null => .ok (.set none)
  | .val l => .ok (.set (some l))

/-- values.get("status") as seen by validate_resolution: the parsed status
when that field validated to an actual value, None when it was absent,
null, or failed its own validation (failed fields are not in values). -/
def effStatusOf (raw : RawTicketUpdate) : Option TicketStatus :=
  match parseStatusField raw.status with
  | .ok (.set v) => v
  | _ => none

/-- Turn one field result into its contribution to the error list. -/
def errsOf {α : Type} (fieldName : String) : Except FieldErr α → List (String × FieldErr)
  | .error e => [(fieldName, e)]
  | .ok _ => []

/-- FastAPI parsing a request body into TicketUpdate: every field is
validated in declaration order and all failures are collected; a non-empty
failure list is returned to the caller as a 422 whose detail is a list of
error objects. -/
def parseTicketUpdate (raw : RawTicketUpdate) :
    Except (List (String × FieldErr)) TicketUpdate :=
  let rt := parseBoundedStr 1 200 raw.title
  let rd := parseBoundedStr 1 1000 raw.description
  let rs := parseStatusField raw.status
  let rr := parseResolutionField (effStatusOf raw) raw.resolution
  let rc := parseCommentsField raw.comments
  match rt, rd, rs, rr, rc with
  | .ok t, .ok d, .ok s, .ok r, .ok c => .ok ⟨t, d, s, r, c⟩
  | _, _, _, _, _ =>
    .error (errsOf "title" rt ++ errsOf "description" rd ++ errsOf "status" rs ++
      errsOf "resolution" rr ++ errsOf "comments" rc)

/-! ## Entity store (api/database.py TicketDatabase), functional view

Every operation runs under the store lock, so its sequential semantics is a
pure function of the stored map. The map is modelled as an association list
keyed by ticket id (Python dict keys are unique; insertion order is the list
order). -/

/-- The stored map, id to record. -/
abbrev Db : Type := List (String × Ticket)

/-- TicketDatabase.get_ticket_by_id: self._tickets.get(ticket_id). -/
def get_ticket_by_id (db : Db) (tid : String) : Option Ticket :=
  (List.find? (fun p => p.1 = tid) db).map Prod.snd

/-- TicketDatabase.update_ticket: when the id is present, stamp updated and
replace the stored record, returning it; otherwise leave the store alone and
return None. -/
def dbUpdateTicket (db : Db) (tid : String) (t : Ticket) (now : Nat) :
    Option Ticket × Db :=
  if (List.find? (fun p => p.1 = tid) db).isSome then
    let t2 := { t with updated := some now }
    (some t2, List.map (fun p => if p.1 = tid then (p.1, t2) else p) db)
  else
    (none, db)

/-- Descending-creation order used by get_all_tickets
(sorted(key=lambda x: x.created, reverse=True)). -/
def createdDesc (a b : Ticket) : Prop := b.created ≤ a.created

instance : DecidableRel createdDesc := fun a b => Nat.decLe b.created a.created

instance : IsTotal Ticket createdDesc :=
  ⟨fun a b => Nat.le_total b.created a.created⟩

instance : IsTrans Ticket createdDesc :=
  ⟨fun _ _ _ hab hbc => Nat.le_trans hbc hab⟩

/-- TicketDatabase.get_all_tickets: copy the values out of the map, filter by
status when a filter is given (enum members are always truthy), and return
them sorted by created descending. -/
def get_all_tickets (db : Db) (status_filter : Option TicketStatus) : List Ticket :=
  let tickets := List.map Prod.snd db
  let tickets2 :=
    match status_filter with
    | none => tickets
    | some f => List.filter (fun t => t.status = some f) tickets
  List.insertionSort createdDesc tickets2

/-! ## PUT /tickets/{id} route handler (api/routes.py update_ticket) -/

/-- How a request to the update route can end, separating FastAPI
request-parsing failures (whose 422 detail is a list of field errors) from
the string-detail errors raised inside the handler (api/exception.py), and
from a handler returning None into the response model. -/
inductive UpdateOutcome where
  | parseError (errs : List (String × FieldErr))
  | notFound (detail : String)
  | invalidStatus (detail : String)
  | validationError (detail : String)
  | respModelError
  | ok (t : Ticket)
  deriving DecidableEq, Repr

/-- The HTTP status each outcome is surfaced with. -/
def UpdateOutcome.httpStatus : UpdateOutcome → Nat
  | .parseError _ => 422
  | .notFound _ => 404
  | .invalidStatus _ => 422
  | .validationError _ => 422
  | .respModelError => 500
  | .ok _ => 200

/-- Whether the outcome is the route handler raising InvalidStatusError. -/
def UpdateOutcome.isInvalidStatus : UpdateOutcome → Bool
  | .invalidStatus _ => true
  | _ => false

/-- TicketNotFoundError detail. -/
def notFoundDetail (tid : String) : String :=
  "Ticket with ID \x27" ++ tid ++ "\x27 not found. Please check the ticket ID and try again."

/-- InvalidStatusError detail (the valid statuses joined with ", "). -/
def invalidStatusDetail (given : String) : String :=
  "Invalid status \x27" ++ given ++ "\x27. Valid statuses are: OPEN, RESOLVED, CLOSED"

/-- ValidationError detail used by the update route. -/
def resolutionRequiredDetail : String :=
  "Resolution note is required when setting ticket status to \x27RESOLVED\x27. Please provide a resolution."

/-- The attribute value of a parsed model field (unset fields read as their
default None). -/
def Patch.attr {α : Type} : Patch α → Option α
  | .unset => none
  | .set v => v

/-- Python truthiness of the resolution attribute of the update model. -/
def Patch.attrTruthyStr (p : Patch String) : Bool :=
  truthyStr p.attr

/-- setattr application of dict(exclude_unset=True): a set field overwrites
the attribute with its (possibly None) value, an unset field is skipped. -/
def applyPatchField {α : Type} (cur : Option α) : Patch α → Option α
  | .unset => cur
  | .set v => v

/-- The for-loop over update_data: only explicitly set fields are assigned;
id, created and updated are not fields of TicketUpdate and are untouched. -/
def applyUpdate (t : Ticket) (u : TicketUpdate) : Ticket :=
  { t with
    title := applyPatchField t.title u.title,
    description := applyPatchField t.description u.description,
    status := applyPatchField t.status u.status,
    resolution := applyPatchField t.resolution u.resolution,
    comments := applyPatchField t.comments u.comments }

/-- Route handler body after the request body has parsed into TicketUpdate.
`nowRoute` is the datetime.now() stamped in the handler and `nowDb` the one
stamped inside TicketDatabase.update_ticket (the stored value). -/
def update_ticket_route (db : Db) (tid : String) (u : TicketUpdate)
    (nowRoute nowDb : Nat) : UpdateOutcome × Db :=
  match get_ticket_by_id db tid with
  | none => (.notFound (notFoundDetail tid), db)
  | some existing =>
    let proceed : UpdateOutcome × Db :=
      let t1 := applyUpdate existing u
      let t2 := { t1 with updated := some nowRoute }
      match dbUpdateTicket db tid t2 nowDb with
      | (some t3, db2) => (.ok t3, db2)
      | (none, db2) => (.respModelError, db2)
    match u.status.attr with
    | none => proceed
    | some st =>
      match ticketStatusOfString st.valueStr with
      | none => (.invalidStatus (invalidStatusDetail st.valueStr), db)
      | some _ =>
        if st = .RESOLVED ∧ u.resolution.attrTruthyStr = false ∧
            truthyStr existing.resolution = false then
          (.validationError resolutionRequiredDetail, db)
        else proceed

/-- The whole PUT /tickets/{id} pipeline: FastAPI body parsing, then the
route handler. A parse failure is a 422 and never reaches the handler. -/
def updateTicketPipeline (db : Db) (tid : String) (raw : RawTicketUpdate)
    (nowRoute nowDb : Nat) : UpdateOutcome × Db :=
  match parseTicketUpdate raw with
  | .error errs => (.parseError errs, db)
  | .ok u => update_ticket_route db tid u nowRoute nowDb

/-! ## Tool adapter (agent/tools.py TicketingTools) -/

/-- A Python result dict as built by the adapter. Each optional component
models presence of the corresponding key: `none` means the key is absent
from the dict. status_code is doubly optional because the operation wrappers
store result.get("status_code"), which puts the key in with value None when
the handler result lacked it. -/
structure Envelope where
  success : Bool
  message : Option String := none
  data : Option BodyVal := none
  ticket : Option BodyVal := none
  status_code : Option (Option Int) := none
  retryable : Option Bool := none
  deriving DecidableEq, Repr

/-- Placeholder for str(e) of the json.JSONDecodeError raised by
response.json() on an unparseable body; the exact prose is irrelevant to
every property proved here. -/
def jsonErrorStr : String := "Expecting value: line 1 column 1 (char 0)"

/-- TicketingTools._handle_response. 5xx: a generic server-error failure
marked retryable. 2xx: parse the body (an unparseable body raises out of the
branch and is caught by the catch-all, producing a non-retryable failure
without a status_code key). Anything else: a failure whose message is the
body detail when the body parses and has one, else "HTTP <code>". -/
def handle_response (r : HttpResponse) (operation : String) : Envelope :=
  if 500 ≤ r.status_code then
    { success := false
      message := some ("Server error during " ++ operation ++ ": " ++ toString r.status_code)
      status_code := some (some r.status_code)
      retryable := some true }
  else if 200 ≤ r.status_code ∧ r.status_code < 300 then
    match r.body with
    | some b => { success := true, data := some b, status_code := some (some r.status_code) }
    | none =>
      { success := false
        message := some ("Error processing response: " ++ jsonErrorStr)
        retryable := some false }
  else
    let msg :=
      match r.body with
      | some b => b.detail.getD ("HTTP " ++ toString r.status_code)
      | none => "HTTP " ++ toString r.status_code
    { success := false
      message := some msg
      status_code := some (some r.status_code)
      retryable := some false }

/-- What self.api_client.post(...) did from the adapter's point of view:
returned a response, raised APIClientError (retries exhausted on transport
errors), or raised some other exception during adapter execution. -/
inductive ApiCall where
  | resp (r : HttpResponse)
  | clientError (e : String)
  | pyExc (e : String)
  deriving DecidableEq, Repr

/-- TicketingTools.create_ticket. The whole body sits in a try/except
Exception, so a raised APIClientError or any other exception becomes a
failure dict; missing dict keys on the success path raise KeyError, caught
the same way. -/
def create_ticket_op (call : ApiCall) : Envelope :=
  match call with
  | .clientError e => { success := false, message := some ("Error creating ticket: " ++ e) }
  | .pyExc e => { success := false, message := some ("Error creating ticket: " ++ e) }
  | .resp r =>
    let res := handle_response r "ticket creation"
    if res.success then
      match res.data with
      | some b =>
        match b.id with
        | some tid =>
          { success := true
            message := some ("Successfully created ticket \x27" ++ tid ++ "\x27")
            ticket := some b }
        | none => { success := false, message := some ("Error creating ticket: \x27id\x27") }
      | none => { success := false, message := some ("Error creating ticket: \x27data\x27") }
    else
      match res.message with
      | some m =>
        { success := false
          message := some ("Failed to create ticket: " ++ m)
          status_code := some (res.status_code.getD none) }
      | none => { success := false, message := some ("Error creating ticket: \x27message\x27") }

/-! ## Reference semantics of store reads (api/database.py, object view)

Python hands ticket objects around by reference. The object graph is made
explicit: a heap assigns records to addresses, and the store's backing map
binds ids to addresses. TicketDatabase.get_ticket_by_id returns the stored
address itself; get_all_tickets builds a fresh list of the stored addresses
(list(dict.values()) copies the container, not the records). Mutating a
record (attribute assignment on the returned object) is a heap write at its
address. -/

/-- The id-to-object binding table inside the store. -/
structure RefStore where
  entries : List (String × Nat)
  deriving DecidableEq, Repr

/-- Dereference an address in the heap. -/
def heapRead (h : List Ticket) (a : Nat) : Option Ticket := h.get? a

/-- Attribute assignment on the object at address a. -/
def heapWrite (h : List Ticket) (a : Nat) (t : Ticket) : List Ticket := h.set a t

/-- get_ticket_by_id at the object level: the stored reference itself. -/
def refGet (s : RefStore) (tid : String) : Option Nat :=
  (List.find? (fun p => p.1 = tid) s.entries).map Prod.snd

/-- get_all_tickets at the object level, before filtering and sorting: a new
list holding the stored references. -/
def refGetAll (s : RefStore) : List Nat := List.map Prod.snd s.entries

/-- The record the store currently associates with an id: follow the stored
reference into the heap. -/
def storedRecord (s : RefStore) (h : List Ticket) (tid : String) : Option Ticket :=
  (refGet s tid).bind (heapRead h)

/-! ## Concrete sample data (api/database.py initialize_sample_data) -/

/-- The first sample ticket, creation time abstracted to 0. -/
def sampleTicket : Ticket :=
  { id := "ticket-001"
    title := some "Login issues"
    description := some "Cannot log into the system"
    comments := some ["User reported issue at 9 AM"]
    created := 0
    updated := none
    status := some .OPEN
    resolution := none }

/-- The second sample ticket (RESOLVED, with a resolution), created later. -/
def sampleTicket2 : Ticket :=
  { id := "ticket-002"
    title := some "Printer not working"
    description := some "Office printer is not responding"
    comments := some ["Checked printer status", "Toner was empty"]
    created := 1
    updated := none
    status := some .RESOLVED
    resolution := some "Replaced toner cartridge" }

/-- A small store holding the two sample tickets. -/
def sampleDb : Db := [("ticket-001", sampleTicket), ("ticket-002", sampleTicket2)]

/-! ## Lemmas about the retry loop -/

theorem retryGo_all5xx (cfg : RetryConfig) (outcomes : Nat → AttemptOutcome) (n : Nat)
    (hall : ∀ j, j < n → ∃ r, outcomes j = .resp r ∧ 500 ≤ r.status_code) :
    ∀ fuel lastExc, 0 < fuel → fuel ≤ n →
      (retryGo cfg outcomes n fuel lastExc).result = .ok (respAt outcomes (n - 1)) := by
  intro fuel
  induction fuel with
  | zero => intro lastExc h; exact absurd h (by omega)
  | succ f ih =>
    intro lastExc _ hle
    obtain ⟨r, hr, h500⟩ := hall (n - (f + 1)) (by omega)
    by_cases hf : f = 0
    · subst hf
      have hidx : n - (0 + 1) = n - 1 := by omega
      rw [hidx] at hr
      simp only [retryGo, hidx, hr, if_pos h500, if_pos rfl]
      simp [respAt, hr]
    · simp only [retryGo, hr, if_pos h500, if_neg hf]
      exact ih lastExc (Nat.pos_of_ne_zero hf) (by omega)

theorem retryGo_allExc (cfg : RetryConfig) (outcomes : Nat → AttemptOutcome) (n : Nat)
    (hall : ∀ j, j < n → ∃ e, outcomes j = .exc e) :
    ∀ fuel lastExc, 0 < fuel → fuel ≤ n →
      (retryGo cfg outcomes n fuel lastExc).result =
        .raised (some (excAt outcomes (n - 1))) := by
  intro fuel
  induction fuel with
  | zero => intro lastExc h; exact absurd h (by omega)
  | succ f ih =>
    intro lastExc _ hle
    obtain ⟨e, he⟩ := hall (n - (f + 1)) (by omega)
    by_cases hf : f = 0
    · subst hf
      have hidx : n - (0 + 1) = n - 1 := by omega
      rw [hidx] at he
      simp only [retryGo, hidx, he, if_pos rfl]
      simp [excAt, he]
    · simp only [retryGo, he, if_neg hf]
      exact ih (some e) (Nat.pos_of_ne_zero hf) (by omega)

theorem retryGo_front (cfg : RetryConfig) (outcomes : Nat → AttemptOutcome) (n : Nat) :
    ∀ k fuel lastExc r, k < fuel → fuel ≤ n →
      (∀ j, j < k → retryableOutcome (outcomes (n - fuel + j))) →
      outcomes (n - fuel + k) = .resp r → r.status_code < 500 →
      ∃ ds, retryGo cfg outcomes n fuel lastExc = ⟨.ok r, ds, k + 1⟩ ∧ ds.length = k := by
  intro k
  induction k with
  | zero =>
    intro fuel lastExc r hk hfn _ hr h500
    obtain ⟨f, rfl⟩ : ∃ f, fuel = f + 1 := ⟨fuel - 1, by omega⟩
    rw [Nat.add_zero] at hr
    refine ⟨[], ?_, rfl⟩
    simp only [retryGo, hr, if_neg (by omega : ¬(500 ≤ r.status_code))]
  | succ m ih =>
    intro fuel lastExc r hk hfn hpre hr h500
    obtain ⟨f, rfl⟩ : ∃ f, fuel = f + 1 := ⟨fuel - 1, by omega⟩
    have hf : ¬(f = 0) := by omega
    have hidx : ∀ j, n - (f + 1) + (j + 1) = n - f + j := by intro j; omega
    have hpre2 : ∀ j, j < m → retryableOutcome (outcomes (n - f + j)) := by
      intro j hj
      rw [← hidx j]
      exact hpre (j + 1) (by omega)
    have hr2 : outcomes (n - f + m) = .resp r := by rw [← hidx m]; exact hr
    have hretry0 := hpre 0 (by omega)
    rw [Nat.add_zero] at hretry0
    cases h0 : outcomes (n - (f + 1)) with
    | resp r0 =>
      have h5 : 500 ≤ r0.status_code := by
        rw [h0] at hretry0; exact hretry0
      obtain ⟨ds, hds, hlen⟩ := ih f lastExc r (by omega) (by omega) hpre2 hr2 h500
      refine ⟨cfg.base_delay * cfg.backoff_factor ^ (n - (f + 1)) :: ds, ?_, by simp [hlen]⟩
      simp only [retryGo, h0, if_pos h5, if_neg hf, hds]
    | exc e =>
      obtain ⟨ds, hds, hlen⟩ := ih f (some e) r (by omega) (by omega) hpre2 hr2 h500
      refine ⟨cfg.base_delay * cfg.backoff_factor ^ (n - (f + 1)) :: ds, ?_, by simp [hlen]⟩
      simp only [retryGo, h0, if_neg hf, hds]

theorem retryGo_delays (cfg : RetryConfig) (outcomes : Nat → AttemptOutcome) (n : Nat) :
    ∀ fuel lastExc, fuel ≤ n →
      (retryGo cfg outcomes n fuel lastExc).delays =
        (List.range (retryGo cfg outcomes n fuel lastExc).delays.length).map
          (fun j => cfg.base_delay * cfg.backoff_factor ^ (n - fuel + j)) := by
  intro fuel
  induction fuel with
  | zero => intro lastExc _; simp [retryGo]
  | succ f ih =>
    intro lastExc hle
    have hshift : ∀ j, n - (f + 1) + (j + 1) = n - f + j := by intro j; omega
    have hcons :
        ∀ l : Option String,
          (cfg.base_delay * cfg.backoff_factor ^ (n - (f + 1)) ::
              (retryGo cfg outcomes n f l).delays) =
            (List.range ((retryGo cfg outcomes n f l).delays.length + 1)).map
              (fun j => cfg.base_delay * cfg.backoff_factor ^ (n - (f + 1) + j)) := by
      intro l
      have hIH := ih l (by omega)
      have hfun :
          (fun j => cfg.base_delay * cfg.backoff_factor ^ (n - f + j)) =
            fun j => cfg.base_delay * cfg.backoff_factor ^ (n - (f + 1) + (j + 1)) :=
        funext fun j => by rw [hshift j]
      rw [hIH, hfun, List.range_succ_eq_map, List.map_cons, List.map_map]
      simp only [Function.comp_def, Nat.succ_eq_add_one, Nat.add_zero, List.length_map,
        List.length_range]
    cases h0 : outcomes (n - (f + 1)) with
    | resp r =>
      by_cases h5 : 500 ≤ r.status_code
      · by_cases hf : f = 0
        · subst hf; simp [retryGo, h0, h5]
        · simp only [retryGo, h0, if_pos h5, if_neg hf]
          exact hcons lastExc
      · simp [retryGo, h0, h5]
    | exc e =>
      by_cases hf : f = 0
      · subst hf; simp [retryGo, h0]
      · simp only [retryGo, h0, if_neg hf]
        exact hcons (some e)

/-! ## Lemmas about the update pipeline -/

theorem ticketStatus_roundtrip (st : TicketStatus) :
    ticketStatusOfString st.valueStr = some st := by
  cases st <;> rfl

theorem find_isSome_of_get {db : Db} {tid : String} {t : Ticket}
    (h : get_ticket_by_id db tid = some t) :
    (List.find? (fun p => p.1 = tid) db).isSome = true := by
  unfold get_ticket_by_id at h
  cases hf : List.find? (fun p => p.1 = tid) db with
  | none => rw [hf] at h; simp at h
  | some p => simp [hf]

theorem parse_ok_fields {raw : RawTicketUpdate} {u : TicketUpdate}
    (h : parseTicketUpdate raw = .ok u) :
    parseBoundedStr 1 200 raw.title = .ok u.title ∧
    parseBoundedStr 1 1000 raw.description = .ok u.description ∧
    parseStatusField raw.status = .ok u.status ∧
    parseResolutionField (effStatusOf raw) raw.resolution = .ok u.resolution ∧
    parseCommentsField raw.comments = .ok u.comments := by
  simp only [parseTicketUpdate] at h
  cases h1 : parseBoundedStr 1 200 raw.title with
  | error e => rw [h1] at h; simp at h
  | ok tv =>
    rw [h1] at h
    cases h2 : parseBoundedStr 1 1000 raw.description with
    | error e => rw [h2] at h; simp at h
    | ok dv =>
      rw [h2] at h
      cases h3 : parseStatusField raw.status with
      | error e => rw [h3] at h; simp at h
      | ok sv =>
        rw [h3] at h
        cases h4 : parseResolutionField (effStatusOf raw) raw.resolution with
        | error e => rw [h4] at h; simp at h
        | ok rv =>
          rw [h4] at h
          cases h5 : parseCommentsField raw.comments with
          | error e => rw [h5] at h; simp at h
          | ok cv =>
            rw [h5] at h
            simp only [Except.ok.injEq] at h
            subst h
            exact ⟨rfl, rfl, rfl, rfl, rfl⟩

theorem parse_ok_of_fields {raw : RawTicketUpdate} {tv dv : Patch String}
    {sv : Patch TicketStatus} {rv : Patch String} {cv : Patch (List String)}
    (h1 : parseBoundedStr 1 200 raw.title = .ok tv)
    (h2 : parseBoundedStr 1 1000 raw.description = .ok dv)
    (h3 : parseStatusField raw.status = .ok sv)
    (h4 : parseResolutionField (effStatusOf raw) raw.resolution = .ok rv)
    (h5 : parseCommentsField raw.comments = .ok cv) :
    parseTicketUpdate raw = .ok ⟨tv, dv, sv, rv, cv⟩ := by
  simp only [parseTicketUpdate, h1, h2, h3, h4, h5]

theorem parseBoundedStr_ok {minLen maxLen : Nat} {jf : JField String}
    (hv : ∀ s, jf = .val s → minLen ≤ s.length ∧ s.length ≤ maxLen) :
    ∃ p, parseBoundedStr minLen maxLen jf = .ok p := by
  cases jf with
  | absent => exact ⟨.unset, rfl⟩
  | null => exact ⟨.set none, rfl⟩
  | val s => exact ⟨.set (some s), by simp [parseBoundedStr, hv s rfl]⟩

theorem parseCommentsField_ok (jf : JField (List String)) :
    ∃ p, parseCommentsField jf = .ok p := by
  cases jf with
  | absent => exact ⟨.unset, rfl⟩
  | null => exact ⟨.set none, rfl⟩
  | val l => exact ⟨.set (some l), rfl⟩

theorem route_success (db : Db) (tid : String) (u : TicketUpdate) (nowR nowD : Nat)
    (t : Ticket)
    (hget : get_ticket_by_id db tid = some t)
    (hpass : ∀ st, u.status.attr = some st →
      ¬(st = .RESOLVED ∧ u.resolution.attrTruthyStr = false ∧
          truthyStr t.resolution = false)) :
    update_ticket_route db tid u nowR nowD =
      (.ok { applyUpdate t u with updated := some nowD },
        List.map
          (fun p => if p.1 = tid then (p.1, { applyUpdate t u with updated := some nowD })
            else p) db) := by
  have hfind := find_isSome_of_get hget
  cases hs : u.status.attr with
  | none =>
    simp [update_ticket_route, hget, hs, dbUpdateTicket, hfind]
  | some st =>
    have hnc := hpass st hs
    simp [update_ticket_route, hget, hs, ticketStatus_roundtrip st, if_neg hnc,
      dbUpdateTicket, hfind]

theorem route_validation_fail (db : Db) (tid : String) (u : TicketUpdate)
    (nowR nowD : Nat) (t : Ticket)
    (hget : get_ticket_by_id db tid = some t)
    (hst : u.status.attr = some .RESOLVED)
    (hru : u.resolution.attrTruthyStr = false)
    (hex : truthyStr t.resolution = false) :
    update_ticket_route db tid u nowR nowD =
      (.validationError resolutionRequiredDetail, db) := by
  simp only [update_ticket_route, hget, hst, ticketStatus_roundtrip]
  rw [if_pos (⟨trivial, hru, hex⟩ :
    True ∧ u.resolution.attrTruthyStr = false ∧ truthyStr t.resolution = false)]

theorem route_ok_shape {db : Db} {tid : String} {u : TicketUpdate} {nowR nowD : Nat}
    {t t2 : Ticket}
    (hget : get_ticket_by_id db tid = some t)
    (hok : (update_ticket_route db tid u nowR nowD).1 = .ok t2) :
    t2 = { applyUpdate t u with updated := some nowD } ∧
    (update_ticket_route db tid u nowR nowD).2 =
      List.map (fun p => if p.1 = tid then (p.1, t2) else p) db := by
  cases hs : u.status.attr with
  | none =>
    have hfind := find_isSome_of_get hget
    have hred := route_success db tid u nowR nowD t hget
      (fun st hst => by rw [hs] at hst; exact absurd hst (by simp))
    rw [hred] at hok
    simp only [Except.ok.injEq] at hok
    rw [hred]
    simp at hok
    subst hok
    exact ⟨rfl, rfl⟩
  | some st =>
    by_cases hc : st = .RESOLVED ∧ u.resolution.attrTruthyStr = false ∧
        truthyStr t.resolution = false
    · have := route_validation_fail db tid u nowR nowD t hget
        (hc.1 ▸ hs) hc.2.1 hc.2.2
      rw [this] at hok
      simp at hok
    · have hred := route_success db tid u nowR nowD t hget
        (fun st2 hst2 => by
          rw [hs] at hst2
          have : st2 = st := by simpa using hst2.symm
          subst this
          exact hc)
      rw [hred] at hok ⊢
      simp at hok
      subst hok
      exact ⟨rfl, rfl⟩

/-! ## Claim theorems: resilient API client -/

/-- C1: When every one of the max_retries attempts yields a 5xx response,
_make_request_with_retry returns the final 5xx response (it is not raised);
when every attempt instead raises a transport-level exception, it raises
APIClientError wrapping the last exception. -/
theorem c1_client_exhaustion (cfg : RetryConfig) (outcomes : Nat → AttemptOutcome)
    (hm : 1 ≤ cfg.max_retries) :
    ((∀ j, j < cfg.max_retries.toNat →
        ∃ r, outcomes j = .resp r ∧ 500 ≤ r.status_code) →
      (makeRequestWithRetry cfg outcomes).result =
        .ok (respAt outcomes (cfg.max_retries.toNat - 1))) ∧
    ((∀ j, j < cfg.max_retries.toNat → ∃ e, outcomes j = .exc e) →
      (makeRequestWithRetry cfg outcomes).result =
        .raised (some (excAt outcomes (cfg.max_retries.toNat - 1)))) := by
  constructor
  · intro hall
    exact retryGo_all5xx cfg outcomes _ hall _ none (by omega) le_rfl
  · intro hall
    exact retryGo_allExc cfg outcomes _ hall _ none (by omega) le_rfl

theorem c1_client_exhaustion_witness :
    (makeRequestWithRetry ⟨2, 1, 2⟩ (fun _ => .resp ⟨500, none⟩)).result =
      .ok ⟨500, none⟩ ∧
    (makeRequestWithRetry ⟨2, 1, 2⟩ (fun _ => .exc "connection refused")).result =
      .raised (some "connection refused") := by
  constructor
  · exact (c1_client_exhaustion ⟨2, 1, 2⟩ (fun _ => .resp ⟨500, none⟩) (by decide)).1
      (fun j hj => ⟨⟨500, none⟩, rfl, by decide⟩)
  · exact (c1_client_exhaustion ⟨2, 1, 2⟩ (fun _ => .exc "connection refused") (by decide)).2
      (fun j hj => ⟨"connection refused", rfl⟩)

/-- C2: A response with status in [400,499] on any attempt i is returned
immediately: the run ends with that response, having issued exactly i+1
attempts and slept only the i backoffs that preceded attempt i (none after
it), whatever max_retries is configured to. -/
theorem c2_terminal_4xx_immediate (cfg : RetryConfig) (outcomes : Nat → AttemptOutcome)
    (i : Nat) (r : HttpResponse)
    (hi : i < cfg.max_retries.toNat)
    (hpre : ∀ j, j < i → retryableOutcome (outcomes j))
    (hr : outcomes i = .resp r)
    (h400 : 400 ≤ r.status_code) (h499 : r.status_code ≤ 499) :
    (makeRequestWithRetry cfg outcomes).result = .ok r ∧
    (makeRequestWithRetry cfg outcomes).delays.length = i ∧
    (makeRequestWithRetry cfg outcomes).attempts = i + 1 := by
  obtain ⟨ds, hds, hlen⟩ := retryGo_front cfg outcomes cfg.max_retries.toNat i
    cfg.max_retries.toNat none r hi le_rfl
    (fun j hj => by simpa [Nat.sub_self] using hpre j hj)
    (by simpa [Nat.sub_self] using hr) (by omega)
  unfold makeRequestWithRetry
  rw [hds]
  exact ⟨rfl, hlen, rfl⟩

theorem c2_terminal_4xx_immediate_witness :
    (makeRequestWithRetry ⟨3, 1, 2⟩ (fun _ => .resp ⟨404, none⟩)).result =
      .ok ⟨404, none⟩ ∧
    (makeRequestWithRetry ⟨3, 1, 2⟩ (fun _ => .resp ⟨404, none⟩)).delays.length = 0 ∧
    (makeRequestWithRetry ⟨3, 1, 2⟩ (fun _ => .resp ⟨404, none⟩)).attempts = 0 + 1 :=
  c2_terminal_4xx_immediate ⟨3, 1, 2⟩ (fun _ => .resp ⟨404, none⟩) 0 ⟨404, none⟩
    (by decide) (fun j hj => absurd hj (by omega)) rfl (by decide) (by decide)

/-- C3: The j-th backoff of any run is exactly base_delay * backoff_factor^j
(the sleep after the attempt with zero-based index j); in particular with
max_retries = 2 and one 5xx followed by a 2xx, the run returns the 2xx
response after exactly one delay equal to base_delay. -/
theorem c3_backoff_schedule (cfg : RetryConfig) (outcomes : Nat → AttemptOutcome) :
    ((makeRequestWithRetry cfg outcomes).delays =
      (List.range (makeRequestWithRetry cfg outcomes).delays.length).map
        (fun j => cfg.base_delay * cfg.backoff_factor ^ j)) ∧
    (∀ r0 r1, cfg.max_retries = 2 →
      outcomes 0 = .resp r0 → 500 ≤ r0.status_code →
      outcomes 1 = .resp r1 → 200 ≤ r1.status_code → r1.status_code < 300 →
      makeRequestWithRetry cfg outcomes = ⟨.ok r1, [cfg.base_delay], 2⟩) := by
  constructor
  · have h := retryGo_delays cfg outcomes cfg.max_retries.toNat cfg.max_retries.toNat
      none le_rfl
    simpa [makeRequestWithRetry, Nat.sub_self] using h
  · intro r0 r1 hmax h0 h500 h1 h200 h300
    have hn : cfg.max_retries.toNat = 2 := by omega
    unfold makeRequestWithRetry
    rw [hn]
    have hd : cfg.base_delay * cfg.backoff_factor ^ (2 - (1 + 1)) = cfg.base_delay := by
      norm_num
    simp only [retryGo, Nat.sub_self, h0, if_pos h500, if_neg (by omega : ¬(1 = 0)), hd]
    simp [show (2 : Nat) - (0 + 1) = 1 from rfl, h1,
      show ¬(500 ≤ r1.status_code) by omega]

theorem c3_backoff_schedule_witness :
    (makeRequestWithRetry ⟨2, 7, 3⟩
        (fun i => if i = 0 then .resp ⟨503, none⟩ else .resp ⟨200, some {}⟩)) =
      ⟨.ok ⟨200, some {}⟩, [7], 2⟩ :=
  (c3_backoff_schedule ⟨2, 7, 3⟩
      (fun i => if i = 0 then .resp ⟨503, none⟩ else .resp ⟨200, some {}⟩)).2
    ⟨503, none⟩ ⟨200, some {}⟩ rfl rfl (by decide) rfl (by decide) (by decide)

/-- C10: With max_retries ≤ 0 the loop body never runs: the client raises
APIClientError (wrapping nothing) with zero attempts issued and zero
backoffs; consequently any run that issued an attempt had max_retries ≥ 1. -/
theorem c10_nonpositive_max_retries (cfg : RetryConfig) (outcomes : Nat → AttemptOutcome) :
    (cfg.max_retries ≤ 0 →
      makeRequestWithRetry cfg outcomes = ⟨.raised none, [], 0⟩) ∧
    ((makeRequestWithRetry cfg outcomes).attempts ≠ 0 → 1 ≤ cfg.max_retries) := by
  have base : cfg.max_retries ≤ 0 →
      makeRequestWithRetry cfg outcomes = ⟨.raised none, [], 0⟩ := by
    intro h
    have h0 : cfg.max_retries.toNat = 0 := by omega
    unfold makeRequestWithRetry
    rw [h0]
    rfl
  refine ⟨base, ?_⟩
  intro ha
  by_contra hlt
  rw [base (by omega)] at ha
  simp at ha

theorem c10_nonpositive_max_retries_witness :
    makeRequestWithRetry ⟨0, 1, 2⟩ (fun _ => .resp ⟨200, some {}⟩) =
      ⟨.raised none, [], 0⟩ :=
  (c10_nonpositive_max_retries ⟨0, 1, 2⟩ (fun _ => .resp ⟨200, some {}⟩)).1 (by decide)

/-! ## Claim theorems: ticket service -/

/-- C4 counterexample: the claim as stated is false. Ticket-002's stored
record already carries a non-empty resolution, and the update body
{status: RESOLVED, resolution: null} carries no non-empty resolution, so
the claim says this update succeeds; but pydantic's validate_resolution
fires on the explicitly supplied null value and the request dies with a 422
parse error, the store unchanged. -/
theorem c4_resolution_rule_counterexample :
    truthyStr sampleTicket2.resolution = true ∧
    get_ticket_by_id sampleDb "ticket-002" = some sampleTicket2 ∧
    updateTicketPipeline sampleDb "ticket-002"
        { status := .val "RESOLVED", resolution := .null } 5 6 =
      (.parseError [("resolution", .resolutionRequired)], sampleDb) ∧
    (updateTicketPipeline sampleDb "ticket-002"
        { status := .val "RESOLVED", resolution := .null } 5 6).1.httpStatus = 422 := by
  refine ⟨rfl, rfl, by decide, rfl⟩

/-- C4 (amended): An update on an existing ticket that sets status to
RESOLVED while neither the incoming body nor the stored record carries a
non-empty resolution fails with a 422 validation error and leaves the store
unchanged. The same update succeeds when a non-empty resolution is
supplied, or when the body omits the resolution field and the record
already has one; but a body that explicitly carries a null or empty
resolution together with status RESOLVED always fails with a 422
(request-body validation fires on the supplied value), even when the
record already carries a non-empty resolution. -/
theorem c4_resolution_rule :
    (∀ (db : Db) (tid : String) (t : Ticket) (raw : RawTicketUpdate) (nowR nowD : Nat),
      get_ticket_by_id db tid = some t →
      raw.status = .val "RESOLVED" →
      (raw.resolution = .absent ∨ raw.resolution = .null ∨ raw.resolution = .val "") →
      truthyStr t.resolution = false →
      (updateTicketPipeline db tid raw nowR nowD).1.httpStatus = 422 ∧
        (updateTicketPipeline db tid raw nowR nowD).2 = db) ∧
    (∀ (db : Db) (tid : String) (t : Ticket) (raw : RawTicketUpdate) (nowR nowD : Nat),
      get_ticket_by_id db tid = some t →
      raw.status = .val "RESOLVED" →
      (∀ s, raw.title = .val s → 1 ≤ s.length ∧ s.length ≤ 200) →
      (∀ s, raw.description = .val s → 1 ≤ s.length ∧ s.length ≤ 1000) →
      ((∃ s, raw.resolution = .val s ∧ s ≠ "" ∧ s.length ≤ 500) ∨
        (raw.resolution = .absent ∧ truthyStr t.resolution = true)) →
      ∃ t2, (updateTicketPipeline db tid raw nowR nowD).1 = .ok t2) ∧
    (∀ (db : Db) (tid : String) (raw : RawTicketUpdate) (nowR nowD : Nat),
      raw.status = .val "RESOLVED" →
      (raw.resolution = .null ∨ raw.resolution = .val "") →
      (updateTicketPipeline db tid raw nowR nowD).1.httpStatus = 422 ∧
        (updateTicketPipeline db tid raw nowR nowD).2 = db) := by
  refine ⟨?_, ?_, ?_⟩
  · intro db tid t raw nowR nowD hget hst hres hex
    cases hp : parseTicketUpdate raw with
    | error errs =>
      simp [updateTicketPipeline, hp, UpdateOutcome.httpStatus]
    | ok u =>
      obtain ⟨h1, h2, h3, h4, h5⟩ := parse_ok_fields hp
      rw [hst] at h3
      have hsv : u.status = .set (some .RESOLVED) := by
        simp only [parseStatusField, ticketStatusOfString, if_pos rfl] at h3
        simp [show ¬("RESOLVED" = "OPEN") by decide] at h3
        exact h3.symm
      have heff : effStatusOf raw = some .RESOLVED := by
        simp [effStatusOf, hst, parseStatusField, ticketStatusOfString]
      rw [heff] at h4
      have hru : u.resolution = .unset := by
        rcases hres with h | h | h <;> rw [h] at h4
        · simpa [parseResolutionField] using h4.symm
        · simp [parseResolutionField] at h4
        · simp [parseResolutionField] at h4
      have hfail := route_validation_fail db tid u nowR nowD t hget
        (by rw [hsv]; rfl) (by rw [hru]; rfl) hex
      simp [updateTicketPipeline, hp, hfail, UpdateOutcome.httpStatus]
  · intro db tid t raw nowR nowD hget hst htitle hdesc hres
    obtain ⟨tv, h1⟩ := parseBoundedStr_ok htitle
    obtain ⟨dv, h2⟩ := parseBoundedStr_ok hdesc
    have h3 : parseStatusField raw.status = .ok (.set (some .RESOLVED)) := by
      simp [hst, parseStatusField, ticketStatusOfString]
    obtain ⟨cv, h5⟩ := parseCommentsField_ok raw.comments
    rcases hres with ⟨s, hrv, hne, hlen⟩ | ⟨habs, hexist⟩
    · have h4 : parseResolutionField (effStatusOf raw) raw.resolution =
          .ok (.set (some s)) := by
        rw [hrv]
        simp [parseResolutionField, hlen, hne]
      have hp := parse_ok_of_fields h1 h2 h3 h4 h5
      have hroute := route_success db tid
        ⟨tv, dv, .set (some .RESOLVED), .set (some s), cv⟩ nowR nowD t hget
        (fun st hstat hbad => by
          have hb := hbad.2.1
          simp [Patch.attrTruthyStr, Patch.attr, truthyStr] at hb
          exact hne hb)
      have houtcome : updateTicketPipeline db tid raw nowR nowD =
          update_ticket_route db tid
            ⟨tv, dv, .set (some .RESOLVED), .set (some s), cv⟩ nowR nowD := by
        simp [updateTicketPipeline, hp]
      exact ⟨_, by rw [houtcome, hroute]⟩
    · have h4 : parseResolutionField (effStatusOf raw) raw.resolution = .ok .unset := by
        rw [habs]; rfl
      have hp := parse_ok_of_fields h1 h2 h3 h4 h5
      have hroute := route_success db tid
        ⟨tv, dv, .set (some .RESOLVED), .unset, cv⟩ nowR nowD t hget
        (fun st hstat hbad => by rw [hexist] at hbad; simp at hbad)
      have houtcome : updateTicketPipeline db tid raw nowR nowD =
          update_ticket_route db tid
            ⟨tv, dv, .set (some .RESOLVED), .unset, cv⟩ nowR nowD := by
        simp [updateTicketPipeline, hp]
      exact ⟨_, by rw [houtcome, hroute]⟩
  · intro db tid raw nowR nowD hst hres
    cases hp : parseTicketUpdate raw with
    | error errs =>
      simp [updateTicketPipeline, hp, UpdateOutcome.httpStatus]
    | ok u =>
      obtain ⟨h1, h2, h3, h4, h5⟩ := parse_ok_fields hp
      have heff : effStatusOf raw = some .RESOLVED := by
        simp [effStatusOf, hst, parseStatusField, ticketStatusOfString]
      rw [heff] at h4
      rcases hres with h | h <;> rw [h] at h4 <;> simp [parseResolutionField] at h4

theorem c4_resolution_rule_witness :
    ((updateTicketPipeline sampleDb "ticket-001"
        { status := .val "RESOLVED" } 5 6).1.httpStatus = 422 ∧
      (updateTicketPipeline sampleDb "ticket-001"
        { status := .val "RESOLVED" } 5 6).2 = sampleDb) ∧
    (∃ t2, (updateTicketPipeline sampleDb "ticket-001"
        { status := .val "RESOLVED", resolution := .val "Replaced cable" } 5 6).1 =
      .ok t2) ∧
    ((updateTicketPipeline sampleDb "ticket-002"
        { status := .val "RESOLVED", resolution := .val "" } 5 6).1.httpStatus = 422 ∧
      (updateTicketPipeline sampleDb "ticket-002"
        { status := .val "RESOLVED", resolution := .val "" } 5 6).2 = sampleDb) := by
  refine ⟨?_, ?_, ?_⟩
  · exact c4_resolution_rule.1 sampleDb "ticket-001" sampleTicket
      { status := .val "RESOLVED" } 5 6 rfl rfl (Or.inl rfl) rfl
  · exact c4_resolution_rule.2.1 sampleDb "ticket-001" sampleTicket
      { status := .val "RESOLVED", resolution := .val "Replaced cable" } 5 6 rfl rfl
      (fun s h => nomatch h) (fun s h => nomatch h)
      (Or.inl ⟨"Replaced cable", rfl, by decide, by decide⟩)
  · exact c4_resolution_rule.2.2 sampleDb "ticket-002"
      { status := .val "RESOLVED", resolution := .val "" } 5 6 rfl (Or.inr rfl)

/-- C5: A successful update on an existing ticket overwrites exactly the
fields explicitly present in the patch with their provided values, keeps
every field not present (including id and created) at its previous value,
stamps the updated timestamp, and stores the result back under the same id. -/
theorem c5_partial_patch (db : Db) (tid : String) (raw : RawTicketUpdate)
    (u : TicketUpdate) (t t2 : Ticket) (nowR nowD : Nat)
    (hp : parseTicketUpdate raw = .ok u)
    (hget : get_ticket_by_id db tid = some t)
    (hok : (updateTicketPipeline db tid raw nowR nowD).1 = .ok t2) :
    t2.id = t.id ∧ t2.created = t.created ∧ t2.updated = some nowD ∧
    (u.title = .unset → t2.title = t.title) ∧
    (∀ v, u.title = .set v → t2.title = v) ∧
    (u.description = .unset → t2.description = t.description) ∧
    (∀ v, u.description = .set v → t2.description = v) ∧
    (u.status = .unset → t2.status = t.status) ∧
    (∀ v, u.status = .set v → t2.status = v) ∧
    (u.resolution = .unset → t2.resolution = t.resolution) ∧
    (∀ v, u.resolution = .set v → t2.resolution = v) ∧
    (u.comments = .unset → t2.comments = t.comments) ∧
    (∀ v, u.comments = .set v → t2.comments = v) ∧
    (updateTicketPipeline db tid raw nowR nowD).2 =
      List.map (fun p => if p.1 = tid then (p.1, t2) else p) db := by
  have hok2 : (update_ticket_route db tid u nowR nowD).1 = .ok t2 := by
    simpa [updateTicketPipeline, hp] using hok
  obtain ⟨ht2, hdb⟩ := route_ok_shape hget hok2
  subst ht2
  refine ⟨rfl, rfl, rfl, ?_, ?_, ?_, ?_, ?_, ?_, ?_, ?_, ?_, ?_, ?_⟩
  · intro h; simp [applyUpdate, applyPatchField, h]
  · intro v h; simp [applyUpdate, applyPatchField, h]
  · intro h; simp [applyUpdate, applyPatchField, h]
  · intro v h; simp [applyUpdate, applyPatchField, h]
  · intro h; simp [applyUpdate, applyPatchField, h]
  · intro v h; simp [applyUpdate, applyPatchField, h]
  · intro h; simp [applyUpdate, applyPatchField, h]
  · intro v h; simp [applyUpdate, applyPatchField, h]
  · intro h; simp [applyUpdate, applyPatchField, h]
  · intro v h; simp [applyUpdate, applyPatchField, h]
  · simpa [updateTicketPipeline, hp] using hdb

theorem c5_partial_patch_witness :
    ({ id := "ticket-001", title := some "New title",
        description := some "Cannot log into the system",
        comments := some ["User reported issue at 9 AM"], created := 0,
        updated := some 6, status := some TicketStatus.OPEN,
        resolution := none } : Ticket).title = some "New title" ∧
    ({ id := "ticket-001", title := some "New title",
        description := some "Cannot log into the system",
        comments := some ["User reported issue at 9 AM"], created := 0,
        updated := some 6, status := some TicketStatus.OPEN,
        resolution := none } : Ticket).description = sampleTicket.description ∧
    ({ id := "ticket-001", title := some "New title",
        description := some "Cannot log into the system",
        comments := some ["User reported issue at 9 AM"], created := 0,
        updated := some 6, status := some TicketStatus.OPEN,
        resolution := none } : Ticket).updated = some 6 := by
  have h := c5_partial_patch sampleDb "ticket-001" { title := .val "New title" }
    ⟨.set (some "New title"), .unset, .unset, .unset, .unset⟩ sampleTicket
    { id := "ticket-001", title := some "New title",
      description := some "Cannot log into the system",
      comments := some ["User reported issue at 9 AM"], created := 0,
      updated := some 6, status := some TicketStatus.OPEN, resolution := none } 5 6
    rfl rfl rfl
  refine ⟨h.2.2.2.2.1 (some "New title") rfl, ?_, h.2.2.1⟩
  have hd := h.2.2.2.2.2.1 rfl
  exact hd

/-- C6: A PUT carrying a status value outside the enum is rejected by
request-body validation with a 422 whose detail is a list of field errors
(here: an enum error on "status"), leaving the store untouched; the route
handler branch that raises InvalidStatusError (the string detail naming
OPEN, RESOLVED, CLOSED) is unreachable for every input, because
TicketUpdate.status is already typed as the enum when the handler runs. -/
theorem c6_invalid_status_never_route :
    (updateTicketPipeline sampleDb "ticket-001" { status := .val "PROGRESS" } 5 6 =
      (.parseError [("status", .enumInvalid)], sampleDb)) ∧
    (UpdateOutcome.parseError [("status", FieldErr.enumInvalid)]).httpStatus = 422 ∧
    (∀ (db : Db) (tid : String) (raw : RawTicketUpdate) (nowR nowD : Nat),
      (updateTicketPipeline db tid raw nowR nowD).1.isInvalidStatus = false) := by
  refine ⟨by decide, rfl, ?_⟩
  intro db tid raw nowR nowD
  cases hp : parseTicketUpdate raw with
  | error errs => simp [updateTicketPipeline, hp, UpdateOutcome.isInvalidStatus]
  | ok u =>
    simp only [updateTicketPipeline, hp]
    cases hget : get_ticket_by_id db tid with
    | none => simp [update_ticket_route, hget, UpdateOutcome.isInvalidStatus]
    | some t =>
      cases hs : u.status.attr with
      | none =>
        by_cases hf : (List.find? (fun p => p.1 = tid) db).isSome = true
        · simp [update_ticket_route, hget, hs, dbUpdateTicket, hf,
            UpdateOutcome.isInvalidStatus]
        · simp [update_ticket_route, hget, hs, dbUpdateTicket, hf,
            UpdateOutcome.isInvalidStatus]
      | some st =>
        by_cases hc : st = .RESOLVED ∧ u.resolution.attrTruthyStr = false ∧
            truthyStr t.resolution = false
        · have := route_validation_fail db tid u nowR nowD t hget
            (hc.1 ▸ hs) hc.2.1 hc.2.2
          simp [this, UpdateOutcome.isInvalidStatus]
        · have := route_success db tid u nowR nowD t hget
            (fun st2 hst2 => by
              rw [hs] at hst2
              have he : st2 = st := by simpa using hst2.symm
              subst he
              exact hc)
          simp [this, UpdateOutcome.isInvalidStatus]

/-- C7: get_all_tickets never fails and returns a snapshot sorted by created
descending; with a status filter it contains exactly the stored tickets
whose status equals the filter (as a multiset and as membership), and
without one it contains every stored ticket. -/
theorem c7_list_snapshot (db : Db) (filt : Option TicketStatus) :
    List.Sorted createdDesc (get_all_tickets db filt) ∧
    (filt = none → List.Perm (get_all_tickets db filt) (List.map Prod.snd db)) ∧
    (∀ f, filt = some f →
      (List.Perm (get_all_tickets db filt)
        (List.filter (fun x => x.status = some f) (List.map Prod.snd db))) ∧
      ∀ x, x ∈ get_all_tickets db filt ↔
        x ∈ List.map Prod.snd db ∧ x.status = some f) := by
  refine ⟨?_, ?_, ?_⟩
  · unfold get_all_tickets
    cases filt <;> exact List.sorted_insertionSort createdDesc _
  · intro h
    subst h
    unfold get_all_tickets
    exact List.perm_insertionSort createdDesc _
  · intro f h
    subst h
    constructor
    · unfold get_all_tickets
      exact List.perm_insertionSort createdDesc _
    · intro x
      unfold get_all_tickets
      rw [List.mem_insertionSort]
      simp [List.mem_filter]

theorem c7_list_snapshot_witness :
    (List.Perm (get_all_tickets sampleDb none) [sampleTicket, sampleTicket2]) ∧
    (List.Perm (get_all_tickets sampleDb (some .RESOLVED)) [sampleTicket2]) :=
  ⟨(c7_list_snapshot sampleDb none).2.1 rfl,
   ((c7_list_snapshot sampleDb (some .RESOLVED)).2.2 .RESOLVED rfl).1⟩

/-! ## Claim theorems: tool adapter -/

/-- C8 counterexample: on a 500 response with a parseable body carrying a
detail field, the create_ticket operation envelope has no retryable key at
all, and its message is the generic server-error text, not one derived from
the body detail — refuting the claim that every failure envelope carries a
retryable flag (true for 5xx) and a detail-derived message. -/
theorem c8_counterexample :
    (create_ticket_op (.resp ⟨500,
        some ⟨some "Internal Server Error - Simulated failure", none⟩⟩)).retryable =
      none ∧
    (create_ticket_op (.resp ⟨500,
        some ⟨some "Internal Server Error - Simulated failure", none⟩⟩)).message =
      some "Failed to create ticket: Server error during ticket creation: 500" ∧
    (create_ticket_op (.resp ⟨500,
        some ⟨some "Internal Server Error - Simulated failure", none⟩⟩)).message ≠
      some ("Failed to create ticket: " ++ "Internal Server Error - Simulated failure") := by
  refine ⟨rfl, rfl, by decide⟩

/-- C8 (amended): every adapter result is an envelope with a success flag
and exceptions never escape; the retryable flag lives on the intermediate
response-handler envelope, where it is present on every failure and true
exactly when the status was at least 500; the operation-level envelope drops
it. The detail-derived message (with "HTTP <code>" fallback) applies to the
4xx path, while 5xx failures get a generic server-error message; the
originating status code is kept on HTTP-classified failures. -/
theorem c8_envelope_amended :
    (∀ (r : HttpResponse) (op : String),
      (handle_response r op).success = false →
      (handle_response r op).retryable = some (decide (500 ≤ r.status_code))) ∧
    (∀ (r : HttpResponse) (b : BodyVal) (d : String),
      400 ≤ r.status_code → r.status_code < 500 →
      r.body = some b → b.detail = some d →
      create_ticket_op (.resp r) =
        { success := false, message := some ("Failed to create ticket: " ++ d),
          status_code := some (some r.status_code) }) ∧
    (∀ r : HttpResponse,
      400 ≤ r.status_code → r.status_code < 500 →
      (r.body = none ∨ ∃ b, r.body = some b ∧ b.detail = none) →
      create_ticket_op (.resp r) =
        { success := false,
          message := some ("Failed to create ticket: HTTP " ++ toString r.status_code),
          status_code := some (some r.status_code) }) ∧
    (∀ e : String,
      create_ticket_op (.clientError e) =
        { success := false, message := some ("Error creating ticket: " ++ e) } ∧
      create_ticket_op (.pyExc e) =
        { success := false, message := some ("Error creating ticket: " ++ e) }) := by
  refine ⟨?_, ?_, ?_, ?_⟩
  · intro r op hfail
    by_cases h5 : 500 ≤ r.status_code
    · simp [handle_response, h5]
    · by_cases h2 : 200 ≤ r.status_code ∧ r.status_code < 300
      · cases hb : r.body with
        | some b =>
          exact absurd hfail (by simp [handle_response, h5, h2, hb])
        | none => simp [handle_response, h5, h2, hb]
      · simp [handle_response, h5, h2]
  · intro r b d h4a h4b hb hd
    have hh : handle_response r "ticket creation" =
        { success := false, message := some d,
          status_code := some (some r.status_code), retryable := some false } := by
      simp [handle_response, show ¬(500 ≤ r.status_code) by omega,
        show ¬(200 ≤ r.status_code ∧ r.status_code < 300) by omega, hb, hd]
    simp [create_ticket_op, hh]
  · intro r h4a h4b hbody
    have hmsg : (match r.body with
        | some b => b.detail.getD ("HTTP " ++ toString r.status_code)
        | none => "HTTP " ++ toString r.status_code) =
        "HTTP " ++ toString r.status_code := by
      rcases hbody with hb | ⟨b, hb, hd⟩ <;> simp [hb]
      simp [hd]
    have hh : handle_response r "ticket creation" =
        { success := false, message := some ("HTTP " ++ toString r.status_code),
          status_code := some (some r.status_code), retryable := some false } := by
      simp only [handle_response, if_neg (show ¬(500 ≤ r.status_code) by omega),
        if_neg (show ¬(200 ≤ r.status_code ∧ r.status_code < 300) by omega)]
      rw [hmsg]
    simp only [create_ticket_op, hh]
    rw [← String.append_assoc]
    rfl
  · intro e
    exact ⟨rfl, rfl⟩

theorem c8_envelope_amended_witness :
    create_ticket_op (.resp ⟨404,
        some ⟨some "Ticket with ID \x27x\x27 not found", none⟩⟩) =
      { success := false,
        message := some "Failed to create ticket: Ticket with ID \x27x\x27 not found",
        status_code := some (some 404) } ∧
    (handle_response ⟨503, none⟩ "ticket creation").retryable = some true := by
  constructor
  · exact (c8_envelope_amended.2.1 ⟨404, some ⟨some "Ticket with ID \x27x\x27 not found", none⟩⟩
      ⟨some "Ticket with ID \x27x\x27 not found", none⟩ "Ticket with ID \x27x\x27 not found"
      (by decide) (by decide) rfl rfl)
  · have h := c8_envelope_amended.1 ⟨503, none⟩ "ticket creation" rfl
    simpa using h

/-! ## Claim theorems: store reads and reference sharing -/

/-- C9 counterexample: the store returns ticket records by reference, not as
independent copies: after reading the reference for "ticket-001" and
mutating the record through it, the store's own record for that id shows
the mutated value — refuting the claim that mutating a returned record does
not change the store's record. -/
theorem c9_counterexample :
    refGet ⟨[("ticket-001", 0)]⟩ "ticket-001" = some 0 ∧
    storedRecord ⟨[("ticket-001", 0)]⟩ [sampleTicket] "ticket-001" = some sampleTicket ∧
    storedRecord ⟨[("ticket-001", 0)]⟩
        (heapWrite [sampleTicket] 0 { sampleTicket with title := some "mutated" })
        "ticket-001" =
      some { sampleTicket with title := some "mutated" } ∧
    ({ sampleTicket with title := some "mutated" } : Ticket) ≠ sampleTicket := by
  refine ⟨rfl, rfl, rfl, by decide⟩

/-- C9 (amended): reads never expose the backing map itself (get hands out a
single stored reference, list a fresh list of them), but the ticket records
are shared, not copied: a write through the reference returned for an id is
visible in every subsequent store read of that id. -/
theorem c9_reads_share_records (s : RefStore) (h : List Ticket) (tid : String)
    (a : Nat) (t2 : Ticket)
    (hget : refGet s tid = some a) (hlt : a < h.length) :
    storedRecord s (heapWrite h a t2) tid = some t2 := by
  unfold storedRecord heapWrite heapRead
  rw [hget]
  simpa [List.get?_eq_getElem?] using List.getElem?_set_eq_of_lt t2 hlt

theorem c9_reads_share_records_witness :
    storedRecord ⟨[("ticket-001", 0)]⟩
        (heapWrite [sampleTicket] 0 { sampleTicket with resolution := some "done" })
        "ticket-001" =
      some { sampleTicket with resolution := some "done" } :=
  c9_reads_share_records ⟨[("ticket-001", 0)]⟩ [sampleTicket] "ticket-001" 0
    { sampleTicket with resolution := some "done" } rfl (by decide)

end TicketSys
